import Mathlib

/-!
Shallow embedding of the CAFC daily-decisions email pipeline
(`cafc_production_system.py`, with the scraper also present in
`cafc_scraper_v2.py`).  Python strings are modelled as `String` /
`List Char`; `datetime` values as a six-field record compared
lexicographically (which agrees with `datetime` comparison); the regular
expressions of the source are translated into deterministic scanners that
implement the same leftmost-match backtracking semantics, argued case by
case at each definition.  ASCII is assumed for character classes
(`\s`, `\w`, `\d`), matching the feed data the program consumes.
-/

/-- ASCII model of Python's `\s` / `str.strip` whitespace class. -/
def is_py_space (c : Char) : Bool :=
  c == ' ' || c == '\t' || c == '\n' || c == '\r' || c == '\x0b' || c == '\x0c'

/-- `ch_starts needle hay` : does `hay` start with `needle`? -/
def ch_starts : List Char → List Char → Bool
  | [], _ => true
  | _ :: _, [] => false
  | a :: as, b :: bs => a == b && ch_starts as bs

/-- `ch_ends needle hay` : does `hay` end with `needle`? -/
def ch_ends (needle hay : List Char) : Bool :=
  ch_starts needle.reverse hay.reverse

/-- `contains_chars hay needle` : Python's substring test `needle in hay`. -/
def contains_chars : List Char → List Char → Bool
  | [], needle => needle.isEmpty
  | hay@(_ :: t), needle => ch_starts needle hay || contains_chars t needle

/-- Python's `needle in hay` on strings. -/
def py_in (needle hay : String) : Bool :=
  contains_chars hay.data needle.data

/-- Python's `str.strip()` (ASCII whitespace). -/
def py_strip (s : String) : String :=
  String.mk (((s.data.dropWhile is_py_space).reverse.dropWhile is_py_space).reverse)

/-- Python's `str.lower()` (ASCII). -/
def py_lower (s : String) : String :=
  String.mk (s.data.map Char.toLower)

/-- Model of a Python naive `datetime` (microseconds are not used by the
program's date handling). -/
structure PyDateTime where
  year : Nat
  month : Nat
  day : Nat
  hour : Nat
  minute : Nat
  second : Nat
deriving DecidableEq

/-- Model of a Python `date` (the result of `datetime.date()`). -/
structure PyDate where
  year : Nat
  month : Nat
  day : Nat
deriving DecidableEq

/-- `datetime.date()`. -/
def date_of (t : PyDateTime) : PyDate :=
  ⟨t.year, t.month, t.day⟩

/-- `datetime` comparison `a <= b` (lexicographic on the six fields,
which is exactly how Python compares naive datetimes). -/
def dt_le (a b : PyDateTime) : Bool :=
  decide (a.year < b.year) ||
    (decide (a.year = b.year) && (decide (a.month < b.month) ||
      (decide (a.month = b.month) && (decide (a.day < b.day) ||
        (decide (a.day = b.day) && (decide (a.hour < b.hour) ||
          (decide (a.hour = b.hour) && (decide (a.minute < b.minute) ||
            (decide (a.minute = b.minute) && decide (a.second ≤ b.second))))))))))

/-- `datetime` strict comparison `a < b`. -/
def dt_lt (a b : PyDateTime) : Bool :=
  !dt_le b a

/-- Day count of a civil date (days since 0000-03-01), the standard
`days_from_civil` algorithm; used to model `timedelta` arithmetic. -/
def days_from_civil (y m d : Nat) : Nat :=
  let yy := if m ≤ 2 then y - 1 else y
  let era := yy / 400
  let yoe := yy % 400
  let mp := (m + 9) % 12
  let doy := (153 * mp + 2) / 5 + d - 1
  let doe := yoe * 365 + yoe / 4 - yoe / 100 + doy
  era * 146097 + doe

/-- Inverse of `days_from_civil` (the standard `civil_from_days`). -/
def civil_from_days (z : Nat) : Nat × Nat × Nat :=
  let era := z / 146097
  let doe := z % 146097
  let yoe := (doe - doe / 1460 + doe / 36524 - doe / 146096) / 365
  let y := yoe + era * 400
  let doy := doe - (365 * yoe + yoe / 4 - yoe / 100)
  let mp := (5 * doy + 2) / 153
  let d := doy - (153 * mp + 2) / 5 + 1
  let m := if mp < 10 then mp + 3 else mp - 9
  (if m ≤ 2 then y + 1 else y, m, d)

/-- A naive `datetime` as a second count. -/
def dt_to_secs (t : PyDateTime) : Nat :=
  days_from_civil t.year t.month t.day * 86400 + t.hour * 3600 + t.minute * 60 + t.second

/-- A second count back to a `datetime`. -/
def secs_to_dt (n : Nat) : PyDateTime :=
  let c := civil_from_days (n / 86400)
  let r := n % 86400
  ⟨c.1, c.2.1, c.2.2, r / 3600, r % 3600 / 60, r % 60⟩

/-- `datetime - timedelta(days=k)`. -/
def dt_sub_days (t : PyDateTime) (days : Nat) : PyDateTime :=
  secs_to_dt (dt_to_secs t - days * 86400)

/-- The regex substitution `re.sub(r'\s*[+-]\d{4}$', '', s)` from
`_parse_rss_date`: strip a trailing sign-and-four-digits UTC offset,
together with the whitespace run right before it.  (`$` is modelled as
end of string; the feed strings carry no trailing newline.) -/
def strip_tz_offset (s : String) : String :=
  match s.data.reverse with
  | d1 :: d2 :: d3 :: d4 :: sgn :: rest =>
    if d1.isDigit && d2.isDigit && d3.isDigit && d4.isDigit && (sgn == '+' || sgn == '-') then
      String.mk (rest.dropWhile is_py_space).reverse
    else s
  | _ => s

/-- `%a` of `strptime`: a case-insensitive three-letter weekday
abbreviation; consumes it. -/
def parse_weekday : List Char → Option (List Char)
  | a :: b :: c :: rest =>
    let w := String.mk [a.toLower, b.toLower, c.toLower]
    if w = "mon" ∨ w = "tue" ∨ w = "wed" ∨ w = "thu" ∨ w = "fri" ∨ w = "sat" ∨ w = "sun" then
      some rest
    else none
  | _ => none

/-- `%b` of `strptime`: a case-insensitive three-letter month
abbreviation, returned as 1..12. -/
def month_num (w : String) : Option Nat :=
  if w = "jan" then some 1 else if w = "feb" then some 2 else if w = "mar" then some 3
  else if w = "apr" then some 4 else if w = "may" then some 5 else if w = "jun" then some 6
  else if w = "jul" then some 7 else if w = "aug" then some 8 else if w = "sep" then some 9
  else if w = "oct" then some 10 else if w = "nov" then some 11 else if w = "dec" then some 12
  else none

/-- Consume `%b`. -/
def parse_month : List Char → Option (Nat × List Char)
  | a :: b :: c :: rest =>
    match month_num (String.mk [a.toLower, b.toLower, c.toLower]) with
    | some m => some (m, rest)
    | none => none
  | _ => none

/-- One or more whitespace characters (a literal blank in a `strptime`
format matches `\s+`). -/
def ws1 (l : List Char) : Option (List Char) :=
  let w := l.takeWhile is_py_space
  if w.isEmpty then none else some (l.drop w.length)

/-- A single literal character. -/
def lit (c : Char) : List Char → Option (List Char)
  | x :: r => if x == c then some r else none
  | [] => none

def digit_val (c : Char) : Nat := c.toNat - 48

/-- `%d` of `strptime` (`3[01]|[12]\d|0[1-9]|[1-9]`) followed in the
format by whitespace.  A two-digit reading that fails the day pattern
cannot be rescued by the one-digit alternative, because the one-digit
reading leaves the second digit in front of the required whitespace. -/
def parse_day : List Char → Option (Nat × List Char)
  | a :: b :: rest =>
    if a.isDigit then
      if b.isDigit then
        if (a = '3' ∧ (b = '0' ∨ b = '1')) ∨ a = '1' ∨ a = '2' ∨ (a = '0' ∧ b ≠ '0') then
          some (digit_val a * 10 + digit_val b, rest)
        else none
      else if a ≠ '0' then some (digit_val a, b :: rest)
      else none
    else none
  | [a] => if a.isDigit ∧ a ≠ '0' then some (digit_val a, []) else none
  | [] => none

/-- `%Y` of `strptime`: exactly four digits. -/
def parse_year4 : List Char → Option (Nat × List Char)
  | a :: b :: c :: d :: rest =>
    if a.isDigit && b.isDigit && c.isDigit && d.isDigit then
      some (digit_val a * 1000 + digit_val b * 100 + digit_val c * 10 + digit_val d, rest)
    else none
  | _ => none

/-- `%H` (`2[0-3]|[0-1]\d|\d`) followed in the format by `:`; the same
no-rescue argument as for `parse_day` applies. -/
def parse_hour : List Char → Option (Nat × List Char)
  | a :: b :: rest =>
    if a.isDigit then
      if b.isDigit then
        if (a = '2' ∧ (b = '0' ∨ b = '1' ∨ b = '2' ∨ b = '3')) ∨ a = '0' ∨ a = '1' then
          some (digit_val a * 10 + digit_val b, rest)
        else none
      else some (digit_val a, b :: rest)
    else none
  | [a] => if a.isDigit then some (digit_val a, []) else none
  | [] => none

/-- `%M` (`[0-5]\d|\d`) followed in the format by `:`. -/
def parse_minute : List Char → Option (Nat × List Char)
  | a :: b :: rest =>
    if a.isDigit then
      if b.isDigit then
        if digit_val a ≤ 5 then some (digit_val a * 10 + digit_val b, rest) else none
      else some (digit_val a, b :: rest)
    else none
  | [a] => if a.isDigit then some (digit_val a, []) else none
  | [] => none

/-- `%S` (`6[0-1]|[0-5]\d|\d`) at the end of the format; `strptime`
fails when unconverted data remains, so the whole rest of the string
must be consumed here. -/
def parse_seconds_end : List Char → Option Nat
  | [a, b] =>
    if a.isDigit ∧ b.isDigit ∧ ((a = '6' ∧ (b = '0' ∨ b = '1')) ∨ digit_val a ≤ 5) then
      some (digit_val a * 10 + digit_val b)
    else none
  | [a] => if a.isDigit then some (digit_val a) else none
  | _ => none

def is_leap (y : Nat) : Bool :=
  (y % 4 == 0 && y % 100 != 0) || y % 400 == 0

def days_in_month (m y : Nat) : Nat :=
  if m = 2 then (if is_leap y then 29 else 28)
  else if m = 4 ∨ m = 6 ∨ m = 9 ∨ m = 11 then 30
  else 31

/-- `datetime.strptime(s, '%a, %d %b %Y %H:%M:%S')`: field-by-field
translation of CPython's generated regex, plus the range validation the
`datetime` constructor performs (day within month, year at least 1,
second at most 59). -/
def strptime_rss (s : String) : Option PyDateTime := do
  let l0 := s.data
  let l1 ← parse_weekday l0
  let l2 ← lit ',' l1
  let l3 ← ws1 l2
  let (day, l4) ← parse_day l3
  let l5 ← ws1 l4
  let (mon, l6) ← parse_month l5
  let l7 ← ws1 l6
  let (yr, l8) ← parse_year4 l7
  let l9 ← ws1 l8
  let (hr, l10) ← parse_hour l9
  let l11 ← lit ':' l10
  let (mi, l12) ← parse_minute l11
  let l13 ← lit ':' l12
  let sec ← parse_seconds_end l13
  if 1 ≤ yr ∧ day ≤ days_in_month mon yr ∧ sec ≤ 59 then
    some ⟨yr, mon, day, hr, mi, sec⟩
  else none

/-- `CAFCScraper._parse_rss_date`: strip the offset, try the fixed
format, and on any failure return the current time (`datetime.now()`,
passed here as the explicit parameter `now`). -/
def parse_rss_date (date_str : String) (now : PyDateTime) : PyDateTime :=
  match strptime_rss (strip_tz_offset date_str) with
  | some dt => dt
  | none => now

/-- The tail pattern `\[([^\]]+)\]` at the head of the input: a literal
`[`, a non-empty greedy run of non-`]` characters, then `]`.  Anything
after the `]` is irrelevant because `re.match` does not anchor the end.
Returns the captured tag. -/
def match_bracket : List Char → Option (List Char)
  | '[' :: rest =>
    let tag := rest.takeWhile (fun c => c != ']')
    if tag.isEmpty then none
    else
      match rest.drop tag.length with
      | ']' :: _ => some tag
      | _ => none
  | _ => none

/-- The lazy group `(.+?)` of the title pattern followed by `\s*\[...]`:
grow the captured text one character at a time (never across a newline,
which `.` does not match) and after each step try the greedy whitespace
run followed by the bracketed tag.  The greedy `\s*` is deterministic
here: a shorter whitespace run would leave a whitespace character where
the literal `[` is required. -/
def lazy_group2 : List Char → List Char → Option (List Char × List Char)
  | _, [] => none
  | acc, c :: cs =>
    if c == '\n' then none
    else
      match match_bracket (cs.dropWhile is_py_space) with
      | some tag => some (acc ++ [c], tag)
      | none => lazy_group2 (acc ++ [c]) cs

/-- The initial greedy `\s*` before `(.+?)`, with backtracking: try the
maximal whitespace run first, then one character less, down to zero. -/
def try_ws_then_group2 (l : List Char) : Nat → Option (List Char × List Char)
  | 0 => lazy_group2 [] l
  | j + 1 =>
    match lazy_group2 [] (l.drop (j + 1)) with
    | some r => some r
    | none => try_ws_then_group2 l j

/-- `\s*(.+?)\s*\[([^\]]+)\]` at the head of the input. -/
def match_body (l : List Char) : Option (List Char × List Char) :=
  try_ws_then_group2 l (l.takeWhile is_py_space).length

/-- `re.match(r'(\d+-\d+):\s*(.+?)\s*\[([^\]]+)\]', full_title)` from
`_parse_rss_item`, with the two `.strip()` calls the source applies to
groups 2 and 3.  The `\d+` runs are deterministic: a shorter digit run
would leave a digit in front of the required `-` or `:`.  Returns
(appeal number, stripped case title, stripped document type). -/
def parse_title_match (t : List Char) : Option (String × String × String) :=
  let d1 := t.takeWhile Char.isDigit
  if d1.isEmpty then none
  else
    match t.drop d1.length with
    | '-' :: r2 =>
      let d2 := r2.takeWhile Char.isDigit
      if d2.isEmpty then none
      else
        match r2.drop d2.length with
        | ':' :: r3 =>
          match match_body r3 with
          | some (g2, g3) =>
            some (String.mk (d1 ++ '-' :: d2), py_strip (String.mk g2), py_strip (String.mk g3))
          | none => none
        | _ => none
    | _ => none

/-- The precedential flag computed by `_parse_rss_item`: false for an
empty description, otherwise `"Precedential" in description and
"Nonprecedential" not in description`. -/
def compute_precedential (description : String) : Bool :=
  if description = "" then false
  else py_in "Precedential" description && !py_in "Nonprecedential" description

/-- ASCII model of `\w`. -/
def is_word_char (c : Char) : Bool :=
  c.isAlphanum || c == '_'

/-- `re.search(r'Origin:\s*(\w+)', description)` at one position: the
literal label, a greedy whitespace run (deterministic as in
`lazy_group2`), then a non-empty greedy word-character run. -/
def try_origin_at (l : List Char) : Option String :=
  if ch_starts "Origin:".data l then
    let r := (l.drop 7).dropWhile is_py_space
    let w := r.takeWhile is_word_char
    if w.isEmpty then none else some (String.mk w)
  else none

/-- Leftmost search for the origin label. -/
def find_origin : List Char → Option String
  | [] => none
  | l@(_ :: t) =>
    match try_origin_at l with
    | some o => some o
    | none => find_origin t

def href_lit : List Char := "href=\"".data

/-- The group of `href="(/opinions-orders/[^"]+\.pdf)"`: the run between
the quotes must start with the documents path, end in `.pdf`, and have
at least one character in between (hence length at least 22).  The
quote-free run is maximal, so greedy backtracking inside it reduces to
exactly these conditions. -/
def valid_anchor_run (run : List Char) : Bool :=
  ch_starts "/opinions-orders/".data run && ch_ends ".pdf".data run && decide (21 < run.length)

/-- `re.search(r'href="(/opinions-orders/[^"]+\.pdf)"', description)`:
leftmost scan; at each position match the literal `href="`, take the
maximal quote-free run, and check it is a valid anchor followed by the
closing quote. -/
def find_pdf_anchor : List Char → Option String
  | [] => none
  | l@(_ :: t) =>
    if ch_starts href_lit l then
      let rest := l.drop 6
      let run := rest.takeWhile (fun c => c != '"')
      if valid_anchor_run run && !(rest.dropWhile (fun c => c != '"')).isEmpty then
        some (String.mk run)
      else find_pdf_anchor t
    else find_pdf_anchor t

/-- The keyword alternation `(?:order|opinion|errata|rule_36_judgment)`.
At any given position at most one branch can match the literal text, so
the alternation is deterministic. -/
def strip_kw (l : List Char) : Option (List Char) :=
  if ch_starts "order".data l then some (l.drop 5)
  else if ch_starts "opinion".data l then some (l.drop 7)
  else if ch_starts "errata".data l then some (l.drop 6)
  else if ch_starts "rule_36_judgment".data l then some (l.drop 16)
  else none

/-- `\d{1,2}` followed by a literal `-`, both consumed; the digits are
returned.  The greedy two-digit reading cannot be rescued by the
one-digit one, which would leave a digit in front of the `-`. -/
def parse_d12_dash : List Char → Option (List Char × List Char)
  | a :: b :: rest =>
    if a.isDigit then
      if b.isDigit then
        match rest with
        | '-' :: r => some ([a, b], r)
        | _ => none
      else if b == '-' then some ([a], rest)
      else none
    else none
  | _ => none

/-- One position of
`re.search(r'-(?:order|opinion|errata|rule_36_judgment)-(\d{1,2}-\d{1,2}-\d{4})_', link)`:
returns the captured date token. -/
def try_url_date_at (l : List Char) : Option String :=
  match l with
  | '-' :: r1 =>
    match strip_kw r1 with
    | some ('-' :: r3) =>
      match parse_d12_dash r3 with
      | some (d1, r4) =>
        match parse_d12_dash r4 with
        | some (d2, r5) =>
          match r5 with
          | a :: b :: c :: d :: '_' :: _ =>
            if a.isDigit && b.isDigit && c.isDigit && d.isDigit then
              some (String.mk (d1 ++ '-' :: (d2 ++ '-' :: [a, b, c, d])))
            else none
          | _ => none
        | none => none
      | none => none
    | _ => none
  | _ => none

/-- Leftmost search for the permalink date token. -/
def find_url_date : List Char → Option String
  | [] => none
  | l@(_ :: t) =>
    match try_url_date_at l with
    | some s => some s
    | none => find_url_date t

/-- One position of `re.search(r'_(\d+)/?$', link)`: an underscore, a
maximal non-empty digit run, then an optional slash and the end of the
string (`$` also matches just before one final newline). -/
def try_url_id_at : List Char → Option String
  | '_' :: r =>
    let ds := r.takeWhile Char.isDigit
    if ds.isEmpty then none
    else
      match r.drop ds.length with
      | [] => some (String.mk ds)
      | ['/'] => some (String.mk ds)
      | ['\n'] => some (String.mk ds)
      | ['/', '\n'] => some (String.mk ds)
      | _ => none
  | _ => none

/-- Leftmost search for the trailing permalink document id. -/
def find_url_id : List Char → Option String
  | [] => none
  | l@(_ :: t) =>
    match try_url_id_at l with
    | some s => some s
    | none => find_url_id t

/-- The constructed-fallback branch of `_parse_rss_item` (guarded by
`if webpage_link:` and requiring both permalink matches). -/
def fallback_pdf_url (link appeal_number doc_type : String) : Option String :=
  if link = "" then none
  else
    match find_url_date link.data, find_url_id link.data with
    | some date_from_url, some doc_id =>
      some ("https://www.cafc.uscourts.gov/opinions-orders/" ++ appeal_number ++ "." ++
        doc_type ++ "." ++ date_from_url ++ "_" ++ doc_id ++ ".pdf")
    | _, _ => none

/-- The whole PDF-link resolution of `_parse_rss_item`: nothing for an
empty description; otherwise the direct anchor extraction, and only when
it fails the constructed fallback; empty string when neither works. -/
def resolve_pdf_link (description link appeal_number doc_type : String) : String :=
  if description = "" then ""
  else
    match find_pdf_anchor description.data with
    | some run => "https://www.cafc.uscourts.gov" ++ run
    | none => (fallback_pdf_url link appeal_number doc_type).getD ""

/-- One RSS `<item>`, reduced to the fields `_parse_rss_item` reads.
`title`/`pubDate` are `none` when the element is missing or has no text;
`description` is the text blob the source's extraction chain ends up
with (empty string when the element is missing); `link` likewise. -/
structure RssItem where
  title : Option String
  description : String
  pubDate : Option String
  link : String
deriving DecidableEq

/-- `CAFCDecision` (production version; `summary` defaults to `""`). -/
structure CAFCDecision where
  title : String
  appeal_number : String
  origin : String
  precedential : Bool
  date : PyDateTime
  doc_type : String
  link : String
  summary : String
deriving DecidableEq

/-- `CAFCScraper._parse_rss_item` of `cafc_production_system.py`:
`None` when the title or pubDate element is missing or empty, or when the
title does not match the three-part pattern; otherwise a decision with
the date from `_parse_rss_date` (which never fails — see
`parse_rss_date`), the origin and precedential flag from the
description, and the resolved PDF link. -/
def parse_rss_item (item : RssItem) (now : PyDateTime) : Option CAFCDecision :=
  match item.title with
  | none => none
  | some full_title =>
    if full_title = "" then none
    else
      match item.pubDate with
      | none => none
      | some date_str =>
        if date_str = "" then none
        else
          let decision_date := parse_rss_date date_str now
          match parse_title_match full_title.data with
          | none => none
          | some (appeal_number, case_title, doc_type) =>
            let origin :=
              if item.description = "" then "Unknown"
              else (find_origin item.description.data).getD "Unknown"
            let precedential := compute_precedential item.description
            let pdf_link := resolve_pdf_link item.description item.link appeal_number doc_type
            some ⟨case_title, appeal_number, origin, precedential, decision_date, doc_type,
              pdf_link, ""⟩

/-- The per-item collection loop of `fetch_recent_decisions`: parse each
item, keep it when a decision was produced and its date is at or after
the cutoff. -/
def collect_decisions : List RssItem → PyDateTime → PyDateTime → List CAFCDecision
  | [], _, _ => []
  | it :: rest, now, cutoff =>
    match parse_rss_item it now with
    | some d =>
      if dt_le cutoff d.date then d :: collect_decisions rest now cutoff
      else collect_decisions rest now cutoff
    | none => collect_decisions rest now cutoff

/-- The sort key relation of `sorted(decisions, key=lambda x: x.date,
reverse=True)`: newer-or-equal first. -/
def by_date_desc (a b : CAFCDecision) : Prop :=
  dt_le b.date a.date = true

instance : DecidableRel by_date_desc :=
  fun a b => inferInstanceAs (Decidable (dt_le b.date a.date = true))

/-- `CAFCScraper.fetch_recent_decisions`: cutoff is `now` minus
`days_back` days; collect in feed order, then stable-sort by date,
newest first (Python's `sorted` is stable, as is `List.insertionSort`,
so the two agree on ties as well). -/
def fetch_recent_decisions (items : List RssItem) (now : PyDateTime) (days_back : Nat) :
    List CAFCDecision :=
  List.insertionSort by_date_desc (collect_decisions items now (dt_sub_days now days_back))

/-- `DecisionSummarizer.is_patent_case`: `True` straight away when there
is no API client or no summary; `True` when the API call raises (the
`answer` parameter is `none`); otherwise `"yes" in answer.strip().lower()`
on the raw response text. -/
def is_patent_case (has_client : Bool) (summary : String) (answer : Option String) : Bool :=
  if !has_client || summary == "" then true
  else
    match answer with
    | none => true
    | some raw => py_in "yes" (py_lower (py_strip raw))

/-- The summarize-and-classify loop of `main` (steps 8 of the script),
carrying the two accumulator lists.  `summarize d` is the result of
`fetch_and_summarize` (empty string on any failure there);
`api_answer d` is the raw classification response for the record, or
`none` when that call raises. -/
def classify_loop (summarize : CAFCDecision → String) (api_answer : CAFCDecision → Option String) :
    List CAFCDecision → List CAFCDecision × List CAFCDecision → List CAFCDecision × List CAFCDecision
  | [], acc => acc
  | d :: ds, (patent, non_patent) =>
    let s := summarize d
    if s == "" then classify_loop summarize api_answer ds (patent ++ [d], non_patent)
    else
      let d2 := { d with summary := s }
      if is_patent_case true s (api_answer d2) then
        classify_loop summarize api_answer ds (patent ++ [d2], non_patent)
      else classify_loop summarize api_answer ds (patent, non_patent ++ [d2])

/-- The classification stage of `main`: with no API client every record
goes to the patent list unchanged; otherwise the loop above runs. -/
def classify_all (has_client : Bool) (summarize : CAFCDecision → String)
    (api_answer : CAFCDecision → Option String) (ds : List CAFCDecision) :
    List CAFCDecision × List CAFCDecision :=
  if has_client then classify_loop summarize api_answer ds ([], [])
  else (ds, [])

/-- A row of the `sent_decisions` table. -/
structure LedgerEntry where
  appeal_number : String
  case_title : String
  decision_date : String
  sent_date : String
  precedential : Bool
deriving DecidableEq

/-- `DecisionDatabase.was_sent`: membership by appeal number. -/
def was_sent (db : List LedgerEntry) (appeal_number : String) : Bool :=
  db.any (fun e => e.appeal_number == appeal_number)

/-- Zero-padded two-digit field of `strftime`. -/
def pad2 (n : Nat) : String :=
  if n < 10 then "0" ++ toString n else toString n

/-- Zero-padded four-digit year of `strftime`. -/
def pad4 (n : Nat) : String :=
  if n < 10 then "000" ++ toString n
  else if n < 100 then "00" ++ toString n
  else if n < 1000 then "0" ++ toString n
  else toString n

/-- `strftime('%Y-%m-%d')`. -/
def fmt_date (t : PyDateTime) : String :=
  pad4 t.year ++ "-" ++ pad2 t.month ++ "-" ++ pad2 t.day

/-- `strftime('%Y-%m-%d %H:%M:%S')`. -/
def fmt_datetime (t : PyDateTime) : String :=
  fmt_date t ++ " " ++ pad2 t.hour ++ ":" ++ pad2 t.minute ++ ":" ++ pad2 t.second

/-- `DecisionDatabase.mark_as_sent`: `INSERT OR REPLACE` keyed on the
appeal number (`sent_at` is the wall-clock time of the insert). -/
def mark_as_sent (db : List LedgerEntry) (d : CAFCDecision) (sent_at : PyDateTime) :
    List LedgerEntry :=
  db.filter (fun e => e.appeal_number != d.appeal_number) ++
    [⟨d.appeal_number, d.title, fmt_date d.date, fmt_datetime sent_at, d.precedential⟩]

/-- The ambient collaborators of one `main` run: whether the summarizer
has an API client, the two enrichment oracles, and the boolean that
`EmailSender.send_email` returns (which `main` discards). -/
structure PipelineEnv where
  has_client : Bool
  summarize : CAFCDecision → String
  api_answer : CAFCDecision → Option String
  send_ok : Bool

/-- `main` of `cafc_production_system.py`, as a function from the feed,
the clocks (`now` for the scraper, `today` for the Eastern-time date
filter) and the persisted ledger to the emitted record set and the
ledger afterwards.  The script fetches 30 days back, keeps only records
whose date-part equals `today` (the comment in the source: "no database
needed - prevents duplicates"), classifies, renders and sends; it never
constructs a `DecisionDatabase`, so the ledger passes through
untouched and unread, whatever `send_ok` is. -/
def main_run (items : List RssItem) (now : PyDateTime) (today : PyDate) (env : PipelineEnv)
    (db : List LedgerEntry) : List CAFCDecision × List LedgerEntry :=
  let all_decisions := fetch_recent_decisions items now 30
  let today_decisions := all_decisions.filter (fun d => date_of d.date == today)
  if today_decisions.isEmpty then ([], db)
  else
    let pn := classify_all env.has_client env.summarize env.api_answer today_decisions
    if pn.1.isEmpty && pn.2.isEmpty then ([], db)
    else (pn.1 ++ pn.2, db)

/-! ### Concrete fixtures used by the claim verdicts -/

/-- A wall-clock instant used as `datetime.now()` in concrete runs. -/
def now0 : PyDateTime := ⟨2025, 10, 27, 20, 0, 0⟩

/-- The matching Eastern-time `date.today()`. -/
def today0 : PyDate := ⟨2025, 10, 27⟩

/-- A well-formed feed item (the title from the spec's example), dated
the same day as `now0`/`today0`. -/
def item_aortic : RssItem :=
  ⟨some "24-1145: AORTIC INNOVATIONS LLC v. EDWARDS LIFESCIENCES CORPORATION [OPINION]",
    "", some "Mon, 27 Oct 2025 12:00:00 +0000", ""⟩

/-- An environment with no API client (all records go to the patent
list unchanged) and a delivery collaborator that reports success. -/
def env0 : PipelineEnv := ⟨false, fun _ => "", fun _ => none, true⟩

/-! ### Helper lemmas about the orchestrator -/

/-- Both exit paths and the normal path of `main_run` return the ledger
it was given. -/
theorem main_run_db_unchanged (items : List RssItem) (now : PyDateTime) (today : PyDate)
    (env : PipelineEnv) (db : List LedgerEntry) : (main_run items now today env db).2 = db := by
  unfold main_run
  dsimp only
  split
  · rfl
  · split
    · rfl
    · rfl

/-- The emitted component of `main_run` does not depend on the ledger. -/
theorem main_run_fst_ignores_db (items : List RssItem) (now : PyDateTime) (today : PyDate)
    (env : PipelineEnv) (db db2 : List LedgerEntry) :
    (main_run items now today env db).1 = (main_run items now today env db2).1 := by
  unfold main_run
  dsimp only
  split
  · rfl
  · split
    · rfl
    · rfl

/-! ### C1 -/

/-- Claim C1, corrected.  The orchestrator `main` never reads or writes
the Ledger: the ledger after a run equals the ledger before, the emitted
set is the same for any two ledger states (so `was_sent` is not
consulted for any candidate), and a second run against the unchanged
feed — starting from the ledger the first run left — emits exactly the
records of the first run again.  The only deduplication is the same-day
date filter inside `main_run`. -/
theorem main_ledger_never_consulted (items : List RssItem) (now : PyDateTime) (today : PyDate)
    (env : PipelineEnv) (db db2 : List LedgerEntry) :
    (main_run items now today env db).2 = db ∧
    (main_run items now today env db).1 = (main_run items now today env db2).1 ∧
    (main_run items now today env (main_run items now today env db).2).1 =
      (main_run items now today env db).1 := by
  refine ⟨main_run_db_unchanged items now today env db, ?_, ?_⟩
  · exact main_run_fst_ignores_db items now today env db db2
  · exact main_run_fst_ignores_db items now today env _ db

/-- Claim C1 as stated is false: against the one-item feed
`[item_aortic]` the first run emits the record `24-1145`, the second run
against the unchanged feed (from the ledger the first run produced)
emits it again rather than zero records, and the emitted and delivered
`case_id` is not present in the Ledger afterwards. -/
theorem main_reemits_counterexample :
    (main_run [item_aortic] now0 today0 env0 []).1.map CAFCDecision.appeal_number = ["24-1145"] ∧
    (main_run [item_aortic] now0 today0 env0
        (main_run [item_aortic] now0 today0 env0 []).2).1.map CAFCDecision.appeal_number =
      ["24-1145"] ∧
    was_sent (main_run [item_aortic] now0 today0 env0 []).2 "24-1145" = false := by
  refine ⟨by decide, by decide, by decide⟩

/-! ### C2 -/

/-- Claim C2, corrected.  The Ledger gains zero entries in every run
whatever the delivery collaborator reports: `main` ignores the boolean
`send_email` returns and never invokes `mark_as_sent`, so after a failed
delivery the Ledger is indeed untouched, but after a confirmed
successful delivery nothing is committed either.  The embedded
`mark_as_sent` itself would have recorded the decision — it is simply
never called by the orchestrator. -/
theorem main_never_commits (items : List RssItem) (now : PyDateTime) (today : PyDate)
    (env : PipelineEnv) (db : List LedgerEntry) (b : Bool)
    (db2 : List LedgerEntry) (d : CAFCDecision) (sent_at : PyDateTime) :
    (main_run items now today { env with send_ok := b } db).2 = db ∧
    was_sent (mark_as_sent db2 d sent_at) d.appeal_number = true := by
  refine ⟨main_run_db_unchanged items now today _ db, ?_⟩
  simp [was_sent, mark_as_sent, List.any_append]

/-- Claim C2 as stated is false: with a delivery collaborator that
confirms success, the run that emits `24-1145` still leaves the Ledger
empty — the emitted `case_id` is not committed. -/
theorem main_no_commit_counterexample :
    (main_run [item_aortic] now0 today0 env0 []).1.map CAFCDecision.appeal_number = ["24-1145"] ∧
    env0.send_ok = true ∧
    (main_run [item_aortic] now0 today0 env0 []).2 = [] := by
  refine ⟨by decide, rfl, by decide⟩

/-! ### Helper lemma about the shape of a successful parse -/

/-- Whenever `_parse_rss_item` produces a decision, the item had a
non-empty title and pubDate, the title matched the three-part pattern,
and the decision is exactly the record the source constructs from those
pieces. -/
theorem parse_rss_item_some_shape (it : RssItem) (now : PyDateTime) (d : CAFCDecision)
    (h : parse_rss_item it now = some d) :
    ∃ t p appeal ct doc, it.title = some t ∧ it.pubDate = some p ∧ t ≠ "" ∧ p ≠ "" ∧
      parse_title_match t.data = some (appeal, ct, doc) ∧
      d = ⟨ct, appeal,
            (if it.description = "" then "Unknown"
             else (find_origin it.description.data).getD "Unknown"),
            compute_precedential it.description, parse_rss_date p now, doc,
            resolve_pdf_link it.description it.link appeal doc, ""⟩ := by
  rcases it with ⟨tt, desc, pp, lk⟩
  cases tt with
  | none => simp [parse_rss_item] at h
  | some t =>
    cases pp with
    | none =>
      by_cases ht : t = "" <;> simp [parse_rss_item, ht] at h
    | some p =>
      by_cases ht : t = ""
      · simp [parse_rss_item, ht] at h
      · by_cases hp : p = ""
        · simp [parse_rss_item, ht, hp] at h
        · rcases htm : parse_title_match t.data with _ | ⟨appeal, ct, doc⟩
          · simp [parse_rss_item, ht, hp, htm] at h
          · refine ⟨t, p, appeal, ct, doc, rfl, rfl, ht, hp, htm, ?_⟩
            simp [parse_rss_item, ht, hp, htm] at h
            exact h.symm

/-! ### C3 -/

/-- A feed item whose title parses but whose pubDate is unparseable. -/
def item_bad_date : RssItem :=
  ⟨some "25-1000: SOMEBODY v. SOMEBODY ELSE [ORDER]", "", some "not a real date", ""⟩

/-- The record the parser produces for `item_bad_date` under `now0`:
its date is the substituted current time. -/
def decision_bad_date : CAFCDecision :=
  ⟨"SOMEBODY v. SOMEBODY ELSE", "25-1000", "Unknown", false, now0, "ORDER", "", ""⟩

/-- Claim C3, corrected.  An entry whose pubDate fails to parse under
the fixed format (after the offset is stripped) is not discarded:
`_parse_rss_date` substitutes the current time (`datetime.now()`), so
the record is still produced whenever the title matches, carrying the
substituted date. -/
theorem unparseable_date_substitutes_now (it : RssItem) (now : PyDateTime) (p : String)
    (hpd : it.pubDate = some p) (hne : p ≠ "")
    (hfail : strptime_rss (strip_tz_offset p) = none) (d : CAFCDecision)
    (h : parse_rss_item it now = some d) : d.date = now := by
  rcases parse_rss_item_some_shape it now d h with
    ⟨t, q, appeal, ct, doc, _, hq, _, _, _, hd⟩
  have hqp : q = p := by rw [hpd] at hq; exact (Option.some_inj.mp hq).symm
  subst hqp
  rw [hd]
  simp [parse_rss_date, hfail]

/-- Witness for the corrected C3 at a concrete input: the pubDate of
`item_bad_date` does not parse, yet the parser emits
`decision_bad_date`, whose date is the substituted `now0`. -/
theorem unparseable_date_substitutes_now_witness : decision_bad_date.date = now0 :=
  unparseable_date_substitutes_now item_bad_date now0 "not a real date" rfl (by decide)
    (by decide) decision_bad_date (by decide)

/-- Claim C3 as stated is false: `item_bad_date`'s pubDate fails to
parse under the fixed format, yet the Record Parser does not discard the
entry — it produces a record whose date is the substituted current
time. -/
theorem unparseable_date_not_discarded_counterexample :
    strptime_rss (strip_tz_offset "not a real date") = none ∧
    parse_rss_item item_bad_date now0 = some decision_bad_date ∧
    decision_bad_date.date = now0 := by
  refine ⟨by decide, by decide, rfl⟩

/-! ### C4 -/

/-- A parsed record carrying a `Nonprecedential` description. -/
def item_nonprec : RssItem :=
  ⟨some "25-1001: APPELLANT v. APPELLEE [ORDER]",
    "Origin: PTO; Nonprecedential order", some "Mon, 27 Oct 2025 12:00:00 +0000", ""⟩

/-- The record the parser produces for `item_nonprec`. -/
def decision_nonprec : CAFCDecision :=
  ⟨"APPELLANT v. APPELLEE", "25-1001", "PTO", false, ⟨2025, 10, 27, 12, 0, 0⟩, "ORDER", "", ""⟩

/-- Claim C4, confirmed.  For every description the computed flag equals
`"Precedential" in description && "Nonprecedential" not in description`
(in particular it is false for an empty description, for one containing
`Nonprecedential`, and for one containing neither token), and every
parsed record's flag is exactly this computation on the item's
description. -/
theorem precedential_flag_exact (desc : String) (it : RssItem) (now : PyDateTime)
    (d : CAFCDecision) (h : parse_rss_item it now = some d) :
    compute_precedential desc = (py_in "Precedential" desc && !py_in "Nonprecedential" desc) ∧
    d.precedential = compute_precedential it.description := by
  constructor
  · by_cases hd : desc = ""
    · subst hd; decide
    · simp [compute_precedential, hd]
  · rcases parse_rss_item_some_shape it now d h with
      ⟨t, p, appeal, ct, doc, _, _, _, _, _, hd⟩
    rw [hd]

/-- Witness for C4 at a concrete input: the description of
`item_nonprec` contains `Nonprecedential`, and the parsed record's flag
is false. -/
theorem precedential_flag_exact_witness :
    decision_nonprec.precedential = false :=
  let h := precedential_flag_exact item_nonprec.description item_nonprec
    ⟨2025, 10, 27, 12, 0, 0⟩ decision_nonprec (by decide)
  h.2.trans (by decide)

/-! ### C5 -/

/-- A feed item whose title matches the three-part pattern but whose
pubDate element is missing. -/
def item_no_pubdate : RssItem :=
  ⟨some "25-1002: ONE v. TWO [OPINION]", "", none, ""⟩

/-- A feed item whose title has no bracketed tag. -/
def item_no_bracket : RssItem :=
  ⟨some "24-1145: FOO v. BAR", "", some "Mon, 27 Oct 2025 12:00:00 +0000", ""⟩

/-- Claim C5, corrected.  The parser produces a record exactly when the
item has a non-empty title, a non-empty pubDate, and the title matches
the three-part pattern (the pubDate condition is extra with respect to
the claim, which made title shape the sole criterion); the spec's
example title parses to the stated `case_id`, `title` and document
kind; and a title without a bracketed tag is skipped, not emitted with a
null tag. -/
theorem parse_iff_title_shape :
    (∀ (it : RssItem) (now : PyDateTime),
      (parse_rss_item it now).isSome =
        (match it.title, it.pubDate with
         | some t, some p => !(t == "") && (!(p == "") && (parse_title_match t.data).isSome)
         | _, _ => false)) ∧
    (parse_rss_item item_aortic now0).map
        (fun d => (d.appeal_number, d.title, d.doc_type)) =
      some ("24-1145", "AORTIC INNOVATIONS LLC v. EDWARDS LIFESCIENCES CORPORATION",
        "OPINION") ∧
    parse_rss_item item_no_bracket now0 = none := by
  refine ⟨?_, by decide, by decide⟩
  intro it now
  rcases it with ⟨tt, desc, pp, lk⟩
  cases tt with
  | none => rfl
  | some t =>
    cases pp with
    | none =>
      by_cases ht : t = "" <;> simp [parse_rss_item, ht]
    | some p =>
      by_cases ht : t = ""
      · simp [parse_rss_item, ht]
      · by_cases hp : p = ""
        · simp [parse_rss_item, ht, hp]
        · rcases htm : parse_title_match t.data with _ | ⟨appeal, ct, doc⟩ <;>
            simp [parse_rss_item, ht, hp, htm]

/-- Claim C5 as stated is false: the title of `item_no_pubdate` matches
the three-part pattern, yet the parser produces no record (the pubDate
element is missing), so "a record exactly when the title matches" does
not hold. -/
theorem parse_not_only_title_counterexample :
    (parse_title_match "25-1002: ONE v. TWO [OPINION]".data).isSome = true ∧
    item_no_pubdate.title = some "25-1002: ONE v. TWO [OPINION]" ∧
    parse_rss_item item_no_pubdate now0 = none := by
  refine ⟨by decide, rfl, by decide⟩

/-! ### Helper lemmas about the classification loop -/

/-- The loop only moves records between the two lists: the total length
grows by exactly one per processed record. -/
theorem classify_loop_length (summarize : CAFCDecision → String)
    (api_answer : CAFCDecision → Option String) :
    ∀ (ds patent non : List CAFCDecision),
      (classify_loop summarize api_answer ds (patent, non)).1.length +
        (classify_loop summarize api_answer ds (patent, non)).2.length =
      patent.length + non.length + ds.length := by
  intro ds
  induction ds with
  | nil => intro patent non; simp [classify_loop]
  | cons d ds ih =>
    intro patent non
    by_cases hs : summarize d == ""
    · simp only [classify_loop, hs, if_pos]
      rw [ih]
      simp [List.length_append]
      omega
    · simp only [classify_loop, hs, if_neg, Bool.false_eq_true, not_false_iff]
      split
      · rw [ih]; simp [List.length_append]; omega
      · rw [ih]; simp [List.length_append]; omega

/-- Records already in the patent accumulator stay there. -/
theorem classify_loop_acc_mem (summarize : CAFCDecision → String)
    (api_answer : CAFCDecision → Option String) :
    ∀ (ds patent non : List CAFCDecision) (x : CAFCDecision), x ∈ patent →
      x ∈ (classify_loop summarize api_answer ds (patent, non)).1 := by
  intro ds
  induction ds with
  | nil => intro patent non x hx; simpa [classify_loop] using hx
  | cons d ds ih =>
    intro patent non x hx
    by_cases hs : summarize d == ""
    · simp only [classify_loop, hs, if_pos]
      exact ih _ _ x (List.mem_append_left _ hx)
    · simp only [classify_loop, hs, if_neg, Bool.false_eq_true, not_false_iff]
      split
      · exact ih _ _ x (List.mem_append_left _ hx)
      · exact ih _ _ x hx

/-- A record whose summarization fails (empty summary) ends up, itself
and unchanged, in the patent list. -/
theorem classify_loop_mem_of_fail (summarize : CAFCDecision → String)
    (api_answer : CAFCDecision → Option String) :
    ∀ (ds patent non : List CAFCDecision) (d : CAFCDecision), d ∈ ds → summarize d = "" →
      d ∈ (classify_loop summarize api_answer ds (patent, non)).1 := by
  intro ds
  induction ds with
  | nil => intro patent non d hd; cases hd
  | cons a ds ih =>
    intro patent non d hd hfail
    rcases List.mem_cons.mp hd with rfl | hd2
    · have hs : summarize d == "" := by simp [hfail]
      simp only [classify_loop, hs, if_pos]
      exact classify_loop_acc_mem summarize api_answer ds _ _ d
        (List.mem_append_right _ (List.mem_singleton.mpr rfl))
    · by_cases hs : summarize a == ""
      · simp only [classify_loop, hs, if_pos]
        exact ih _ _ d hd2 hfail
      · simp only [classify_loop, hs, if_neg, Bool.false_eq_true, not_false_iff]
        split
        · exact ih _ _ d hd2 hfail
        · exact ih _ _ d hd2 hfail

/-! ### C9 -/

/-- Claim C9, confirmed.  Classification fails open: with no API client,
with an empty (failed) summary, or when the classification call raises
(`answer = none`), `is_patent_case` returns `True`.  The enrichment
stage never drops a record: the two output lists together have exactly
one entry per input record, a record whose summarization fails is kept
unchanged and unenriched in the patent list, and with no client at all
the whole input passes through unchanged. -/
theorem enrichment_fails_open (s : String) (ans : Option String) (hc : Bool)
    (summarize : CAFCDecision → String) (api_answer : CAFCDecision → Option String)
    (ds : List CAFCDecision) (d : CAFCDecision) (hd : d ∈ ds) (hfail : summarize d = "") :
    is_patent_case false s ans = true ∧
    is_patent_case hc "" ans = true ∧
    is_patent_case hc s none = true ∧
    (classify_all true summarize api_answer ds).1.length +
        (classify_all true summarize api_answer ds).2.length = ds.length ∧
    d ∈ (classify_all true summarize api_answer ds).1 ∧
    classify_all false summarize api_answer ds = (ds, []) := by
  refine ⟨rfl, ?_, ?_, ?_, ?_, rfl⟩
  · cases hc <;> rfl
  · simp only [is_patent_case]
    split
    · rfl
    · rfl
  · simpa [classify_all] using classify_loop_length summarize api_answer ds [] []
  · simpa [classify_all] using
      classify_loop_mem_of_fail summarize api_answer ds [] [] d hd hfail

/-- Witness for C9 at a concrete input: under a summarizer that always
fails, the parsed `decision_nonprec` is kept, unchanged, in the emitted
patent list. -/
theorem enrichment_fails_open_witness :
    decision_nonprec ∈
      (classify_all true (fun _ => "") (fun _ => none) [decision_nonprec]).1 :=
  (enrichment_fails_open "" none true (fun _ => "") (fun _ => none) [decision_nonprec]
    decision_nonprec (List.mem_singleton.mpr rfl) rfl).2.2.2.2.1

/-! ### C8 -/

/-- Removing an unparseable item from a feed does not change the
collected decisions: failures are isolated per entry. -/
theorem collect_decisions_skip_bad :
    ∀ (l1 l2 : List RssItem) (bad : RssItem) (now cutoff : PyDateTime),
      parse_rss_item bad now = none →
      collect_decisions (l1 ++ bad :: l2) now cutoff = collect_decisions (l1 ++ l2) now cutoff := by
  intro l1
  induction l1 with
  | nil => intro l2 bad now cutoff h; simp [collect_decisions, h]
  | cons a l1 ih =>
    intro l2 bad now cutoff h
    rcases hp : parse_rss_item a now with _ | d <;>
      simp [collect_decisions, hp, ih l2 bad now cutoff h]

/-- An item no parser path accepts (missing title element). -/
def item_bad_title : RssItem := ⟨none, "", some "Mon, 27 Oct 2025 05:00:00 +0000", ""⟩

/-- A feed of nine well-formed same-day items with the malformed
`item_bad_title` in the middle. -/
def feed_ten : List RssItem :=
  [⟨some "25-1001: A v. B [OPINION]", "", some "Mon, 27 Oct 2025 01:00:00 +0000", ""⟩,
   ⟨some "25-1002: C v. D [OPINION]", "", some "Mon, 27 Oct 2025 02:00:00 +0000", ""⟩,
   ⟨some "25-1003: E v. F [ORDER]", "", some "Mon, 27 Oct 2025 03:00:00 +0000", ""⟩,
   ⟨some "25-1004: G v. H [OPINION]", "", some "Mon, 27 Oct 2025 04:00:00 +0000", ""⟩,
   item_bad_title,
   ⟨some "25-1005: I v. J [ERRATA]", "", some "Mon, 27 Oct 2025 05:00:00 +0000", ""⟩,
   ⟨some "25-1006: K v. L [OPINION]", "", some "Mon, 27 Oct 2025 06:00:00 +0000", ""⟩,
   ⟨some "25-1007: M v. N [ORDER]", "", some "Mon, 27 Oct 2025 07:00:00 +0000", ""⟩,
   ⟨some "25-1008: O v. P [OPINION]", "", some "Mon, 27 Oct 2025 08:00:00 +0000", ""⟩,
   ⟨some "25-1009: Q v. R [OPINION]", "", some "Mon, 27 Oct 2025 09:00:00 +0000", ""⟩]

/-- Claim C8, confirmed.  A malformed entry never aborts the processing
of the remaining entries: dropping any entry the parser rejects leaves
`fetch_recent_decisions` unchanged, and the concrete feed of nine
well-formed in-window entries plus one malformed one yields exactly nine
records. -/
theorem malformed_entry_isolated :
    (∀ (l1 l2 : List RssItem) (bad : RssItem) (now : PyDateTime) (days_back : Nat),
      parse_rss_item bad now = none →
      fetch_recent_decisions (l1 ++ bad :: l2) now days_back =
        fetch_recent_decisions (l1 ++ l2) now days_back) ∧
    (fetch_recent_decisions feed_ten now0 30).length = 9 := by
  constructor
  · intro l1 l2 bad now days_back h
    unfold fetch_recent_decisions
    rw [collect_decisions_skip_bad l1 l2 bad now _ h]
  · decide

/-- Witness for C8 at a concrete input: removing the malformed
`item_bad_title` from a one-item feed leaves the fetched list
unchanged. -/
theorem malformed_entry_isolated_witness :
    fetch_recent_decisions ([] ++ item_bad_title :: []) now0 30 =
      fetch_recent_decisions ([] ++ []) now0 30 :=
  malformed_entry_isolated.1 [] [] item_bad_title now0 30 rfl

/-! ### C10 -/

/-- Every collected decision passed the cutoff comparison. -/
theorem collect_decisions_window :
    ∀ (items : List RssItem) (now cutoff : PyDateTime) (d : CAFCDecision),
      d ∈ collect_decisions items now cutoff → dt_le cutoff d.date = true := by
  intro items
  induction items with
  | nil => intro now cutoff d hd; cases hd
  | cons it items ih =>
    intro now cutoff d hd
    rcases hp : parse_rss_item it now with _ | e
    · simp only [collect_decisions, hp] at hd
      exact ih now cutoff d hd
    · simp only [collect_decisions, hp] at hd
      by_cases hc : dt_le cutoff e.date = true
      · rw [if_pos hc] at hd
        rcases List.mem_cons.mp hd with rfl | hd2
        · exact hc
        · exact ih now cutoff d hd2
      · rw [if_neg hc] at hd
        exact ih now cutoff d hd

/-- Totality of the `datetime` order. -/
theorem dt_le_total (a b : PyDateTime) : dt_le a b = true ∨ dt_le b a = true := by
  unfold dt_le
  simp only [Bool.or_eq_true, Bool.and_eq_true, decide_eq_true_eq]
  omega

/-- Transitivity of the `datetime` order. -/
theorem dt_le_trans (a b c : PyDateTime) (h1 : dt_le a b = true) (h2 : dt_le b c = true) :
    dt_le a c = true := by
  unfold dt_le at h1 h2 ⊢
  simp only [Bool.or_eq_true, Bool.and_eq_true, decide_eq_true_eq] at h1 h2 ⊢
  omega

instance : IsTotal CAFCDecision by_date_desc :=
  ⟨fun a b => by unfold by_date_desc; exact dt_le_total b.date a.date⟩

instance : IsTrans CAFCDecision by_date_desc :=
  ⟨fun a b c h1 h2 => by
    unfold by_date_desc at h1 h2 ⊢
    exact dt_le_trans c.date b.date a.date h2 h1⟩

/-- Claim C10, corrected.  The fetched list contains only decisions
whose date is at or after `now` minus `days_back` days, and it is
sorted by date newest-first — but only non-strictly: ties are possible
and are kept in feed order by the stable sort, so the ordering is
non-increasing rather than strictly descending. -/
theorem fetch_window_and_sorted :
    (∀ (items : List RssItem) (now : PyDateTime) (days_back : Nat) (d : CAFCDecision),
      d ∈ fetch_recent_decisions items now days_back →
        dt_le (dt_sub_days now days_back) d.date = true) ∧
    (∀ (items : List RssItem) (now : PyDateTime) (days_back : Nat),
      List.Pairwise by_date_desc (fetch_recent_decisions items now days_back)) := by
  constructor
  · intro items now days_back d hd
    refine collect_decisions_window items now (dt_sub_days now days_back) d ?_
    exact (List.perm_insertionSort by_date_desc _).mem_iff.mp hd
  · intro items now days_back
    exact List.sorted_insertionSort by_date_desc _

/-- Witness for the corrected C10 at a concrete input: the one decision
fetched from `[item_aortic]` is inside the 30-day window ending at
`now0`. -/
theorem fetch_window_and_sorted_witness :
    dt_le (dt_sub_days now0 30)
      (⟨"AORTIC INNOVATIONS LLC v. EDWARDS LIFESCIENCES CORPORATION", "24-1145", "Unknown",
        false, ⟨2025, 10, 27, 12, 0, 0⟩, "OPINION", "", ""⟩ : CAFCDecision).date = true :=
  fetch_window_and_sorted.1 [item_aortic] now0 30 _ (by decide)

/-- Two well-formed items sharing one pubDate. -/
def item_tie_a : RssItem :=
  ⟨some "25-2001: S v. T [OPINION]", "", some "Mon, 27 Oct 2025 12:00:00 +0000", ""⟩

def item_tie_b : RssItem :=
  ⟨some "25-2002: U v. V [ORDER]", "", some "Mon, 27 Oct 2025 12:00:00 +0000", ""⟩

/-- Claim C10 as stated is false: a feed with two decisions bearing the
same date yields a fetched list whose consecutive dates are equal, so
the output is not sorted in strictly descending date order. -/
theorem fetch_not_strictly_sorted_counterexample :
    (fetch_recent_decisions [item_tie_a, item_tie_b] now0 30).map (fun d => d.date) =
      [⟨2025, 10, 27, 12, 0, 0⟩, ⟨2025, 10, 27, 12, 0, 0⟩] ∧
    ¬ List.Pairwise (fun a b : CAFCDecision => dt_lt b.date a.date = true)
        (fetch_recent_decisions [item_tie_a, item_tie_b] now0 30) := by
  refine ⟨by decide, by decide⟩

/-! ### Helper lemmas for the anchor-extraction characterisation -/

theorem ch_starts_iff (p : List Char) : ∀ l, ch_starts p l = true ↔ ∃ r, l = p ++ r := by
  induction p with
  | nil =>
    intro l
    simp [ch_starts]
  | cons a as ih =>
    intro l
    cases l with
    | nil => simp [ch_starts]
    | cons b bs =>
      simp only [ch_starts, Bool.and_eq_true, beq_iff_eq]
      constructor
      · rintro ⟨rfl, h⟩
        rcases (ih bs).mp h with ⟨r, rfl⟩
        exact ⟨r, rfl⟩
      · rintro ⟨r, h⟩
        injection h with h1 h2
        exact ⟨h1.symm, (ih bs).mpr ⟨r, h2⟩⟩

theorem ch_starts_append (p r : List Char) : ch_starts p (p ++ r) = true :=
  (ch_starts_iff p (p ++ r)).mpr ⟨r, rfl⟩

theorem takeWhile_middle (p : Char → Bool) :
    ∀ (xs : List Char) (y : Char) (ys : List Char), (∀ x ∈ xs, p x = true) → p y = false →
      (xs ++ y :: ys).takeWhile p = xs ∧ (xs ++ y :: ys).dropWhile p = y :: ys := by
  intro xs
  induction xs with
  | nil =>
    intro y ys _ hy
    simp [List.takeWhile_cons, List.dropWhile_cons, hy]
  | cons a as ih =>
    intro y ys hall hy
    have ha : p a = true := hall a (List.mem_cons_self a as)
    have ih2 := ih y ys (fun x hx => hall x (List.mem_cons_of_mem a hx)) hy
    simp [List.takeWhile_cons, List.dropWhile_cons, ha, ih2.1, ih2.2]

theorem dropWhile_head_false (p : Char → Bool) :
    ∀ (l : List Char) (y : Char) (ys : List Char), l.dropWhile p = y :: ys → p y = false := by
  intro l
  induction l with
  | nil => intro y ys h; simp [List.dropWhile] at h
  | cons a as ih =>
    intro y ys h
    rw [List.dropWhile_cons] at h
    split at h
    · exact ih y ys h
    · next hpa =>
      cases h
      simpa using hpa

/-- The specification-side reading of "the description contains a valid
documents-path `.pdf` anchor": some occurrence of `href="` is followed
by a quote-free run that starts with the documents path, ends in
`.pdf` with something in between, and is closed by a quote. -/
def contains_pdf_anchor (desc : String) : Prop :=
  ∃ pre run post, desc.data = pre ++ href_lit ++ (run ++ '"' :: post) ∧
    valid_anchor_run run = true ∧ ∀ c ∈ run, c ≠ '"'

/-- The scanner `find_pdf_anchor` succeeds exactly on inputs containing
a valid anchor. -/
theorem find_pdf_anchor_isSome_iff :
    ∀ l : List Char,
      (find_pdf_anchor l).isSome = true ↔
        ∃ pre run post, l = pre ++ href_lit ++ (run ++ '"' :: post) ∧
          valid_anchor_run run = true ∧ ∀ c ∈ run, c ≠ '"' := by
  intro l
  induction l with
  | nil =>
    constructor
    · intro h
      simp [find_pdf_anchor] at h
    · rintro ⟨pre, run, post, h, -, -⟩
      have hl := congrArg List.length h
      simp only [List.length_nil, List.length_append, List.length_cons] at hl
      omega
  | cons c t ih =>
    have hunfold :
        find_pdf_anchor (c :: t) =
          if ch_starts href_lit (c :: t) then
            if valid_anchor_run (((c :: t).drop 6).takeWhile (fun c => c != '"')) &&
                !(((c :: t).drop 6).dropWhile (fun c => c != '"')).isEmpty then
              some (String.mk (((c :: t).drop 6).takeWhile (fun c => c != '"')))
            else find_pdf_anchor t
          else find_pdf_anchor t := rfl
    by_cases hpre : ch_starts href_lit (c :: t) = true
    · rcases (ch_starts_iff href_lit (c :: t)).mp hpre with ⟨r, hr⟩
      have hdrop : (c :: t).drop 6 = r := by
        rw [hr]
        exact List.drop_left href_lit r
      by_cases hinner :
          (valid_anchor_run (r.takeWhile (fun c => c != '"')) &&
            !(r.dropWhile (fun c => c != '"')).isEmpty) = true
      · constructor
        · intro _
          have hv : valid_anchor_run (r.takeWhile (fun c => c != '"')) = true := by
            simp only [Bool.and_eq_true] at hinner
            exact hinner.1
          have hne : (r.dropWhile (fun c => c != '"')).isEmpty = false := by
            simp only [Bool.and_eq_true, Bool.not_eq_true'] at hinner
            exact hinner.2
          rcases hafter : r.dropWhile (fun c => c != '"') with _ | ⟨y, ys⟩
          · rw [hafter] at hne; simp at hne
          · have hy : (y != '"') = false := dropWhile_head_false _ r y ys hafter
            have hyq : y = '"' := by simpa using hy
            subst hyq
            refine ⟨[], r.takeWhile (fun c => c != '"'), ys, ?_, hv, ?_⟩
            · rw [hr, List.nil_append]
              congr 1
              rw [← hafter, List.takeWhile_append_dropWhile]
            · intro x hx
              simpa using List.mem_takeWhile_imp hx
        · intro _
          rw [hunfold, if_pos hpre, hdrop, if_pos hinner]
          rfl
      · have hlhs : find_pdf_anchor (c :: t) = find_pdf_anchor t := by
          rw [hunfold, if_pos hpre, hdrop, if_neg hinner]
        rw [hlhs, ih]
        constructor
        · rintro ⟨pre, run, post, heq, hv, hq⟩
          exact ⟨c :: pre, run, post, by rw [heq]; rfl, hv, hq⟩
        · rintro ⟨pre, run, post, heq, hv, hq⟩
          cases pre with
          | nil =>
            exfalso
            apply hinner
            have hreq : r = run ++ '"' :: post := by
              have := heq.symm.trans hr
              simpa using this.symm
            have hq2 : ∀ x ∈ run, (fun c => c != '"') x = true := by
              intro x hx
              simpa using hq x hx
            have hmid := takeWhile_middle (fun c => c != '"') run '"' post hq2 (by simp)
            rw [hreq, hmid.1, hmid.2]
            simpa using hv
          | cons a pre2 =>
            have hta : t = pre2 ++ href_lit ++ (run ++ '"' :: post) := by
              have := heq
              simp only [List.cons_append, List.append_assoc] at this ⊢
              injection this with _ h2
            exact ⟨pre2, run, post, hta, hv, hq⟩
    · have hlhs : find_pdf_anchor (c :: t) = find_pdf_anchor t := by
        rw [hunfold, if_neg hpre]
      rw [hlhs, ih]
      constructor
      · rintro ⟨pre, run, post, heq, hv, hq⟩
        exact ⟨c :: pre, run, post, by rw [heq]; rfl, hv, hq⟩
      · rintro ⟨pre, run, post, heq, hv, hq⟩
        cases pre with
        | nil =>
          exfalso
          apply hpre
          rw [heq, List.nil_append]
          exact ch_starts_append href_lit _
        | cons a pre2 =>
          have hta : t = pre2 ++ href_lit ++ (run ++ '"' :: post) := by
            have := heq
            simp only [List.cons_append, List.append_assoc] at this ⊢
            injection this with _ h2
          exact ⟨pre2, run, post, hta, hv, hq⟩

/-! ### C6 -/

/-- A description carrying a valid documents-path anchor. -/
def desc_anchor : String :=
  "<a href=\"/opinions-orders/25-1502.OPINION.10-28-2025_2594460.pdf\">link</a>"

/-- Claim C6, confirmed.  Whenever anchor extraction succeeds, the
resolved URL is that anchor prefixed with the feed host and the
constructed fallback plays no part (the result does not mention the
permalink); extraction succeeds exactly when the description contains a
valid documents-path `.pdf` anchor; when both strategies fail the URL is
the empty string; and the parser's success never depends on the
description or permalink, so a record with no resolvable URL still
proceeds. -/
theorem resolver_anchor_first (desc link appeal_number doc_type a : String) (it : RssItem)
    (now : PyDateTime) :
    (find_pdf_anchor desc.data = some a →
      resolve_pdf_link desc link appeal_number doc_type = "https://www.cafc.uscourts.gov" ++ a) ∧
    ((find_pdf_anchor desc.data).isSome = true ↔ contains_pdf_anchor desc) ∧
    (find_pdf_anchor desc.data = none → fallback_pdf_url link appeal_number doc_type = none →
      resolve_pdf_link desc link appeal_number doc_type = "") ∧
    (parse_rss_item it now).isSome =
      (parse_rss_item { it with description := "", link := "" } now).isSome := by
  refine ⟨?_, find_pdf_anchor_isSome_iff desc.data, ?_, ?_⟩
  · intro h
    have hne : desc ≠ "" := by
      intro h0
      subst h0
      have h1 : find_pdf_anchor ("" : String).data = none := rfl
      rw [h1] at h
      cases h
    simp [resolve_pdf_link, hne, h]
  · intro hfind hfb
    by_cases hd : desc = ""
    · simp [resolve_pdf_link, hd]
    · simp [resolve_pdf_link, hd, hfind, hfb]
  · rcases it with ⟨tt, d0, pp, lk⟩
    cases tt with
    | none => rfl
    | some t =>
      cases pp with
      | none => by_cases ht : t = "" <;> simp [parse_rss_item, ht]
      | some p =>
        by_cases ht : t = ""
        · simp [parse_rss_item, ht]
        · by_cases hp : p = ""
          · simp [parse_rss_item, ht, hp]
          · rcases htm : parse_title_match t.data with _ | ⟨appeal, ct, doc⟩ <;>
              simp [parse_rss_item, ht, hp, htm]

/-- Witness for C6 at a concrete input: `desc_anchor` contains a valid
anchor, and resolution returns exactly that anchor on the feed host even
though the supplied permalink would also let the fallback construct a
URL. -/
theorem resolver_anchor_first_witness :
    resolve_pdf_link desc_anchor
        "https://www.cafc.uscourts.gov/2025/10/x-order-10-2-2025_999/" "25-1502" "OPINION" =
      "https://www.cafc.uscourts.gov" ++ "/opinions-orders/25-1502.OPINION.10-28-2025_2594460.pdf" :=
  (resolver_anchor_first desc_anchor
      "https://www.cafc.uscourts.gov/2025/10/x-order-10-2-2025_999/" "25-1502" "OPINION"
      "/opinions-orders/25-1502.OPINION.10-28-2025_2594460.pdf"
      item_aortic now0).1 (by decide)

/-! ### C7 -/

/-- The spec's example permalink (anchor-free description). -/
def sisvel_link : String :=
  "https://www.cafc.uscourts.gov/2025/10/10-02-2025-24-1071-sisvel-international-s-a-v-tct-mobile-international-limited-order-24-1071-order-10-2-2025_2598245/"

/-- A feed item with that permalink and a description carrying no
anchor. -/
def item_sisvel : RssItem :=
  ⟨some "24-1071: SISVEL INTERNATIONAL S.A. v. TCT MOBILE INTERNATIONAL LIMITED [ORDER]",
    "Origin: DCT; Nonprecedential order", some "Thu, 2 Oct 2025 15:30:00 +0000", sisvel_link⟩

/-- Claim C7, confirmed.  When the permalink yields both a date token
(after one of the keyword tags) and a trailing numeric id, the fallback
builds exactly the template URL; when the description is non-empty and
anchor extraction fails, the resolved URL is whatever the fallback
produced (or empty); and on the spec's example permalink, with no
extractable anchor, the parsed record's URL is
`.../opinions-orders/24-1071.ORDER.10-2-2025_2598245.pdf`. -/
theorem fallback_builds_template (link appeal_number doc_type date_tok doc_id desc : String) :
    (find_url_date link.data = some date_tok → find_url_id link.data = some doc_id →
      fallback_pdf_url link appeal_number doc_type =
        some ("https://www.cafc.uscourts.gov/opinions-orders/" ++ appeal_number ++ "." ++
          doc_type ++ "." ++ date_tok ++ "_" ++ doc_id ++ ".pdf")) ∧
    (desc ≠ "" → find_pdf_anchor desc.data = none →
      resolve_pdf_link desc link appeal_number doc_type =
        (fallback_pdf_url link appeal_number doc_type).getD "") ∧
    (parse_rss_item item_sisvel now0).map CAFCDecision.link =
      some "https://www.cafc.uscourts.gov/opinions-orders/24-1071.ORDER.10-2-2025_2598245.pdf" := by
  refine ⟨?_, ?_, by decide⟩
  · intro h1 h2
    have hl : link ≠ "" := by
      intro h0
      subst h0
      have h3 : find_url_date ("" : String).data = none := rfl
      rw [h3] at h1
      cases h1
    simp [fallback_pdf_url, hl, h1, h2]
  · intro hd hfind
    simp [resolve_pdf_link, hd, hfind]

/-- Witness for C7 at a concrete input: on the example permalink the
fallback constructs exactly the template URL. -/
theorem fallback_builds_template_witness :
    fallback_pdf_url sisvel_link "24-1071" "ORDER" =
      some ("https://www.cafc.uscourts.gov/opinions-orders/" ++ "24-1071" ++ "." ++ "ORDER" ++
        "." ++ "10-2-2025" ++ "_" ++ "2598245" ++ ".pdf") :=
  (fallback_builds_template sisvel_link "24-1071" "ORDER" "10-2-2025" "2598245" "x").1
    (by decide) (by decide)
